import Mathlib

/-!
Shallow embedding of `vllm/multimodal/utils.py`:
the `MediaConnector` (URL-scheme dispatch with a data-URL parser and a
local-file sandbox check), `merge_and_sort_multimodal_metadata`, and
`group_mm_inputs_by_modality`, together with theorems about them.

Modelling conventions:
* Python exceptions are modelled with `Except PyError`; the error
  constructors mirror the Python exception classes raised (or caught) in
  the source file.
* Python `str` is modelled by `String`; helper string operations that the
  source takes from the Python standard library (`str.split(sep, 1)`,
  `str.startswith`) are defined below on `String.data`.
* Filesystem paths are modelled as lists of components of an absolute
  path (`Path("/a/b")` is `["a", "b"]`); `pathlib`'s `Path.resolve`
  (symlink / `..` resolution, an OS effect) and `urllib.parse.urlparse`
  are modelled as unconstrained functions supplied by the environment
  record `MediaConnector`.
* Python dicts are modelled as association lists in insertion order;
  key lookup takes the first matching entry (real dicts have unique keys).
* Object identity (`id(x)`) is modelled by a `uid` field: two list entries
  denote the same Python object exactly when their `uid`s agree.
-/

/-- Python exception values raised (or caught) by the code under study. -/
inductive PyError : Type where
  /-- `NotImplementedError(msg)` -/
  | notImplementedError (msg : String)
  /-- `ValueError(msg)` -/
  | valueError (msg : String)
  /-- `RuntimeError(msg)` -/
  | runtimeError (msg : String)
  /-- `AssertionError(msg)` -/
  | assertionError (msg : String)
  /-- `KeyError` from a failed dict lookup -/
  | keyError (key : String)
  /-- `PIL.UnidentifiedImageError(msg)`: unrecognized image format -/
  | unidentifiedImageError (msg : String)
  /-- an error raised by the HTTP transport client (timeouts included) -/
  | transportError (msg : String)
  deriving DecidableEq, Repr

/-- Python `str.split(sep, 1)` restricted to the case the source uses:
splitting at the FIRST occurrence of a one-character separator, with the
two pieces unpacked into two variables.  Returns `none` when the separator
does not occur (in Python the two-variable unpacking then raises
`ValueError`). -/
def splitOnceChars (sep : Char) : List Char → Option (List Char × List Char)
  | [] => none
  | c :: rest =>
    if c = sep then
      some ([], rest)
    else
      (splitOnceChars sep rest).map (fun p => (c :: p.1, p.2))

/-- `splitOnceChars` lifted to `String`. -/
def splitOnce (sep : Char) (s : String) : Option (String × String) :=
  (splitOnceChars sep s.data).map (fun p => (⟨p.1⟩, ⟨p.2⟩))

/-- Python `s.startswith(p)`. -/
def pyStartsWith (s p : String) : Bool :=
  p.data.isPrefixOf s.data

/-- Python `str(x)` on an `Optional[str]`: `str(None)` is the literal
string `"None"`, `str` of a string is the string itself. -/
def pyStr : Option String → String
  | none => "None"
  | some s => s

/-- Lookup in a Python dict modelled as an association list (first
matching key; real dicts have unique keys). -/
def dictGet {α : Type} (d : List (String × α)) (k : String) : Option α :=
  match d with
  | [] => none
  | (k', v) :: rest => if k' = k then some v else dictGet rest k

/-- `pathlib.PurePath.parents`: the proper ancestors of a path (all
proper prefixes of its component list), nearest first; the filesystem
root is `[]`. -/
def pathParents (p : List String) : List (List String) :=
  ((List.range p.length).map (fun i => p.take i)).reverse

/-- Equality of `Except` values is decidable (needed to run the model on
concrete inputs). -/
instance {ε α : Type} [DecidableEq ε] [DecidableEq α] :
    DecidableEq (Except ε α)
  | .error e, .error f =>
    if h : e = f then .isTrue (congrArg Except.error h)
    else .isFalse (fun he => h (Except.error.inj he))
  | .error _, .ok _ => .isFalse Except.noConfusion
  | .ok _, .error _ => .isFalse Except.noConfusion
  | .ok a, .ok b =>
    if h : a = b then .isTrue (congrArg Except.ok h)
    else .isFalse (fun he => h (Except.ok.inj he))

/-- `urllib.parse.urlparse` output, restricted to the fields the source
reads (`scheme` and `path`). -/
structure ParseResult where
  scheme : String
  path : String

/-- A per-modality codec (`MediaIO` in the source): each loader may raise
(`Except`).  `B` is the type of raw transport bytes, `α` the decoded
value type. -/
structure MediaIO (B α : Type) where
  load_bytes : B → Except PyError α
  load_base64 : String → String → Except PyError α
  load_file : List String → Except PyError α

/-- The `MediaConnector` state together with the ambient effects the
source calls into:
* `get_bytes` / `async_get_bytes`: the `HTTPConnection` transport
  (blocking and suspending byte fetch);
* `allowed_local_media_path`: the sandbox directory (`None` when the
  `--allowed-local-media-path` option was not given);
* `urlparse`: `urllib.parse.urlparse`, modelled as an oracle;
* `toPath`: `pathlib.Path(string)` component parsing;
* `resolve`: `Path.resolve()` — absolute, symlink-resolved form (an OS
  effect, so modelled as an unconstrained function);
* `VLLM_*_FETCH_TIMEOUT`: the per-modality timeouts from `vllm.envs`. -/
structure MediaConnector (B : Type) where
  get_bytes : String → Option Nat → Except PyError B
  async_get_bytes : String → Option Nat → Except PyError B
  allowed_local_media_path : Option (List String)
  urlparse : String → ParseResult
  toPath : String → List String
  resolve : List String → List String
  VLLM_AUDIO_FETCH_TIMEOUT : Nat
  VLLM_IMAGE_FETCH_TIMEOUT : Nat
  VLLM_VIDEO_FETCH_TIMEOUT : Nat

namespace MediaConnector

variable {B α : Type}

/-- `MediaConnector._load_data_url`:
```
data_spec, data = url_spec.path.split(",", 1)
media_type, data_type = data_spec.split(";", 1)
if data_type != "base64": raise NotImplementedError(...)
return media_io.load_base64(media_type, data)
``` -/
def load_data_url (media_io : MediaIO B α) (url_path : String) :
    Except PyError α :=
  match splitOnce ',' url_path with
  | none => .error (.valueError "not enough values to unpack")
  | some (data_spec, data) =>
    match splitOnce ';' data_spec with
    | none => .error (.valueError "not enough values to unpack")
    | some (media_type, data_type) =>
      if data_type = "base64" then
        media_io.load_base64 media_type data
      else
        .error (.notImplementedError
          "Only base64 data URLs are supported for now.")

/-- `MediaConnector._load_file_url`:
```
if self.allowed_local_media_path is None: raise RuntimeError(...)
filepath = Path(url_spec.path)
if allowed_local_media_path not in filepath.resolve().parents:
    raise ValueError(...)
return media_io.load_file(filepath)
``` -/
def load_file_url (c : MediaConnector B) (media_io : MediaIO B α)
    (url_path : String) : Except PyError α :=
  match c.allowed_local_media_path with
  | none =>
    .error (.runtimeError
      "Cannot load local files without `--allowed-local-media-path`.")
  | some allowed =>
    let filepath := c.toPath url_path
    if allowed ∈ pathParents (c.resolve filepath) then
      media_io.load_file filepath
    else
      .error (.valueError
        "The file path must be a subpath of `--allowed-local-media-path`.")

/-- `MediaConnector.load_from_url` (blocking form). -/
def load_from_url (c : MediaConnector B) (url : String)
    (media_io : MediaIO B α) (fetch_timeout : Option Nat := none) :
    Except PyError α :=
  let url_spec := c.urlparse url
  if pyStartsWith url_spec.scheme "http" then
    match c.get_bytes url fetch_timeout with
    | .error e => .error e
    | .ok data => media_io.load_bytes data
  else if url_spec.scheme = "data" then
    load_data_url media_io url_spec.path
  else if url_spec.scheme = "file" then
    load_file_url c media_io url_spec.path
  else
    .error (.valueError "The URL must be either a HTTP, data or file URL.")

/-- `MediaConnector.load_from_url_async` (suspending form); identical to
`load_from_url` except that the byte fetch goes through
`connection.async_get_bytes`. -/
def load_from_url_async (c : MediaConnector B) (url : String)
    (media_io : MediaIO B α) (fetch_timeout : Option Nat := none) :
    Except PyError α :=
  let url_spec := c.urlparse url
  if pyStartsWith url_spec.scheme "http" then
    match c.async_get_bytes url fetch_timeout with
    | .error e => .error e
    | .ok data => media_io.load_bytes data
  else if url_spec.scheme = "data" then
    load_data_url media_io url_spec.path
  else if url_spec.scheme = "file" then
    load_file_url c media_io url_spec.path
  else
    .error (.valueError "The URL must be either a HTTP, data or file URL.")

/-- `MediaConnector.fetch_audio`: build the audio codec and delegate to
`load_from_url` with the audio timeout.  (Codec construction from
`media_io_kwargs` is external; the built codec is the argument.) -/
def fetch_audio (c : MediaConnector B) (audio_io : MediaIO B α)
    (audio_url : String) : Except PyError α :=
  c.load_from_url audio_url audio_io (some c.VLLM_AUDIO_FETCH_TIMEOUT)

/-- `MediaConnector.fetch_audio_async`. -/
def fetch_audio_async (c : MediaConnector B) (audio_io : MediaIO B α)
    (audio_url : String) : Except PyError α :=
  c.load_from_url_async audio_url audio_io (some c.VLLM_AUDIO_FETCH_TIMEOUT)

/-- `MediaConnector.fetch_image`: delegate to `load_from_url` with the
image timeout, converting `UnidentifiedImageError` into `ValueError`
(`raise ValueError(str(e)) from e`). -/
def fetch_image (c : MediaConnector B) (image_io : MediaIO B α)
    (image_url : String) : Except PyError α :=
  match c.load_from_url image_url image_io (some c.VLLM_IMAGE_FETCH_TIMEOUT) with
  | .error (.unidentifiedImageError m) => .error (.valueError m)
  | r => r

/-- `MediaConnector.fetch_image_async`. -/
def fetch_image_async (c : MediaConnector B) (image_io : MediaIO B α)
    (image_url : String) : Except PyError α :=
  match c.load_from_url_async image_url image_io
      (some c.VLLM_IMAGE_FETCH_TIMEOUT) with
  | .error (.unidentifiedImageError m) => .error (.valueError m)
  | r => r

/-- `MediaConnector.fetch_video`: delegate to `load_from_url` with the
video timeout; no exception handling. -/
def fetch_video (c : MediaConnector B) (video_io : MediaIO B α)
    (video_url : String) : Except PyError α :=
  c.load_from_url video_url video_io (some c.VLLM_VIDEO_FETCH_TIMEOUT)

/-- `MediaConnector.fetch_video_async`. -/
def fetch_video_async (c : MediaConnector B) (video_io : MediaIO B α)
    (video_url : String) : Except PyError α :=
  c.load_from_url_async video_url video_io (some c.VLLM_VIDEO_FETCH_TIMEOUT)

/-- `MediaConnector.fetch_image_embedding`:
`image_embedding_io.load_base64("", data)` — no URL parsing, no
exception handling. -/
def fetch_image_embedding (image_embedding_io : MediaIO B α)
    (data : String) : Except PyError α :=
  image_embedding_io.load_base64 "" data

end MediaConnector

/-- `PlaceholderRange` (from `vllm/multimodal/inputs.py`): where one media
item's tokens sit inside the input token sequence. -/
structure PlaceholderRange where
  offset : Nat
  length : Nat
  deriving DecidableEq, Repr

/-- The comparison induced by the sort key in
`merge_and_sort_multimodal_metadata` (`key=lambda x: x[1].offset`). -/
def offsetLE (a b : String × PlaceholderRange × Option String) : Prop :=
  a.2.1.offset ≤ b.2.1.offset

instance : DecidableRel offsetLE :=
  fun a b => Nat.decLe a.2.1.offset b.2.1.offset

instance : IsTotal (String × PlaceholderRange × Option String) offsetLE :=
  ⟨fun a b => Nat.le_total a.2.1.offset b.2.1.offset⟩

instance : IsTrans (String × PlaceholderRange × Option String) offsetLE :=
  ⟨fun _ _ _ hab hbc => Nat.le_trans hab hbc⟩

/-- The hash list paired with one modality's placeholder list in
`merge_and_sort_multimodal_metadata`:
```
hash_list = list(mm_hashes[modality]) if mm_hashes and modality in mm_hashes
            else [None] * len(placeholder_list)
```
(`mm_hashes` truthiness: non-`None` and non-empty). -/
def hashListFor (mm_hashes : Option (List (String × List String)))
    (modality : String) (n : Nat) : List (Option String) :=
  match mm_hashes with
  | some h =>
    if h.isEmpty then
      List.replicate n none
    else
      match dictGet h modality with
      | some hl => hl.map some
      | none => List.replicate n none
  | none => List.replicate n none

/-- The flattening step of `merge_and_sort_multimodal_metadata`: one
`(modality, placeholder, hash)` triple per placeholder, per modality, in
dict insertion order (`zip` truncates to the shorter operand, as in
Python). -/
def flattenItems (mm_positions : List (String × List PlaceholderRange))
    (mm_hashes : Option (List (String × List String))) :
    List (String × PlaceholderRange × Option String) :=
  mm_positions.flatMap (fun m =>
    (m.2.zip (hashListFor mm_hashes m.1 m.2.length)).map
      (fun ph => (m.1, ph.1, ph.2)))

/-- `merge_and_sort_multimodal_metadata`.  The stable Python list sort
(`all_items.sort(key=lambda x: x[1].offset)`, Timsort) is modelled by the
stable `List.insertionSort` (a stable sort's output is uniquely
determined by the input and the key, so any stable sort is a faithful
model). -/
def merge_and_sort_multimodal_metadata
    (mm_positions : List (String × List PlaceholderRange))
    (mm_hashes : Option (List (String × List String))) :
    Except PyError
      (List String × List PlaceholderRange × Option (List String)) :=
  let modalities := mm_positions.map Prod.fst
  if h0 : modalities.length = 0 then
    .error (.assertionError "No modalities found in the mm_positions.")
  else if modalities.length = 1 then
    let modality := modalities.head (by simpa using h0)
    let placeholder_list := (dictGet mm_positions modality).getD []
    let third : Except PyError (Option (List String)) :=
      match mm_hashes with
      | none => .ok none
      | some h =>
        if h.isEmpty then
          .ok none
        else
          match dictGet h modality with
          | some hl => .ok (some hl)
          | none => .error (.keyError modality)
    match third with
    | .error e => .error e
    | .ok t =>
      .ok (List.replicate placeholder_list.length modality,
           placeholder_list, t)
  else
    let all_items := flattenItems mm_positions mm_hashes
    let sorted_items := List.insertionSort offsetLE all_items
    let sorted_modalities := sorted_items.map (fun x => x.1)
    let merged_placeholders := sorted_items.map (fun x => x.2.1)
    let merged_hashes : Option (List String) :=
      match mm_hashes with
      | some _ => some (sorted_items.map (fun x => pyStr x.2.2))
      | none => none
    .ok (sorted_modalities, merged_placeholders, merged_hashes)

/-- `MultiModalKwargs`, restricted to what `group_mm_inputs_by_modality`
reads: the set of modality names (`mm_input.modalities`) and the object
identity `id(mm_input)` (`uid`). -/
structure MultiModalKwargs where
  uid : Nat
  modalities : List String
  deriving DecidableEq, Repr

/-- The grouping key of `group_mm_inputs_by_modality.modality_group_func`
(`Union[str, int]`: an `int` object id never equals a `str`). -/
def modality_group_func (mm_input : MultiModalKwargs) : Nat ⊕ String :=
  if 1 < mm_input.modalities.length then
    .inl mm_input.uid
  else if mm_input.modalities.length = 1 then
    .inr (mm_input.modalities.headD "")
  else
    .inr ""

/-- `itertools.groupby` (keeping only the groups, as the source does):
maximal runs of consecutive elements with equal keys.  An element joins
the group of the element that follows it exactly when their keys are
equal (the last pattern of the inner match is unreachable, since
`pyGroupby` never returns `[]` on a non-empty list). -/
def pyGroupby {α κ : Type} [DecidableEq κ] (key : α → κ) :
    List α → List (List α)
  | [] => []
  | [x] => [[x]]
  | x :: y :: t =>
    match pyGroupby key (y :: t) with
    | g :: gs =>
      if key x = key y then (x :: g) :: gs else [x] :: g :: gs
    | [] => [[x]]

/-- `group_mm_inputs_by_modality`. -/
def group_mm_inputs_by_modality (mm_inputs : List MultiModalKwargs) :
    List (List MultiModalKwargs) :=
  if mm_inputs.isEmpty then
    []
  else
    pyGroupby modality_group_func mm_inputs

/-- The `media_type ; data_type , payload` decomposition of a `data:`
URL path, mirroring the two splits performed by `_load_data_url`:
`some (media_type, data_type, payload)` when both splits succeed. -/
def dataUrlParts (url_path : String) : Option (String × String × String) :=
  match splitOnce ',' url_path with
  | none => none
  | some (data_spec, payload) =>
    match splitOnce ';' data_spec with
    | none => none
    | some (media_type, data_type) => some (media_type, data_type, payload)

/-! ### Concrete test fixtures (used to run the model on closed inputs) -/

/-- A codec that decodes everything to a length count. -/
def lenIO : MediaIO (List Nat) Nat :=
  { load_bytes := fun b => .ok b.length
    load_base64 := fun _ d => .ok d.length
    load_file := fun p => .ok p.length }

/-- A codec whose every loader raises the unrecognized-image-format
error, as `PIL` does on malformed image bytes. -/
def brokenImageIO : MediaIO (List Nat) Nat :=
  { load_bytes := fun _ => .error (.unidentifiedImageError "cannot identify image file")
    load_base64 := fun _ _ => .error (.unidentifiedImageError "cannot identify image file")
    load_file := fun _ => .error (.unidentifiedImageError "cannot identify image file") }

/-- A concrete connector over a tiny environment: the transport always
returns three bytes (identically in the blocking and suspending shape),
the sandbox is `/data/media`, every path parses to
`/data/media/link`, and resolution sends it to `/etc/secret` (a symlink
inside the sandbox pointing outside it).  The URL parser is fixed to
return the given scheme and path. -/
def mkConnector (scheme url_path : String) : MediaConnector (List Nat) :=
  { get_bytes := fun _ _ => .ok [7, 7, 7]
    async_get_bytes := fun _ _ => .ok [7, 7, 7]
    allowed_local_media_path := some ["data", "media"]
    urlparse := fun _ => ⟨scheme, url_path⟩
    toPath := fun _ => ["data", "media", "link"]
    resolve := fun _ => ["etc", "secret"]
    VLLM_AUDIO_FETCH_TIMEOUT := 10
    VLLM_IMAGE_FETCH_TIMEOUT := 30
    VLLM_VIDEO_FETCH_TIMEOUT := 30 }

/-- A two-modality placeholder dict used by concrete witnesses. -/
def mmPositionsEx : List (String × List PlaceholderRange) :=
  [("image", [⟨5, 2⟩]), ("audio", [⟨0, 3⟩])]

/-- A hash dict covering only the `"image"` modality. -/
def mmHashesEx : List (String × List String) :=
  [("image", ["h1"])]

/-- A batch of four single-modality payloads (distinct objects) with
modalities `a, a, b, a`. -/
def mmInputsEx : List MultiModalKwargs :=
  [⟨0, ["a"]⟩, ⟨1, ["a"]⟩, ⟨2, ["b"]⟩, ⟨3, ["a"]⟩]

/-- One two-modality payload object. -/
def mmMultiEx : MultiModalKwargs :=
  ⟨7, ["a", "b"]⟩

/-! ### Helper lemmas -/

/-- Membership in `pathParents` is exactly "proper ancestor": a proper
(prefix, not equal) initial segment of the component list. -/
theorem mem_pathParents {a p : List String} :
    a ∈ pathParents p ↔ a <+: p ∧ a ≠ p := by
  unfold pathParents
  simp only [List.mem_reverse, List.mem_map, List.mem_range]
  constructor
  · rintro ⟨i, hi, rfl⟩
    refine ⟨⟨p.drop i, p.take_append_drop i⟩, fun he => ?_⟩
    have := congrArg List.length he
    simp only [List.length_take] at this
    omega
  · rintro ⟨⟨t, rfl⟩, hne⟩
    refine ⟨a.length, ?_, List.take_left a t⟩
    cases t with
    | nil => simp at hne
    | cons x xs => simp only [List.length_append, List.length_cons]; omega

/-- Stability of the modelled sort, in filter form: restricted to any
class of pairwise-related elements, sorting is the identity on the
subsequence, i.e. those elements keep their relative order from the
input. -/
theorem filter_insertionSort_eq {α : Type} (r : α → α → Prop)
    [DecidableRel r] [IsTotal α r] [IsTrans α r] (p : α → Bool)
    (hp : ∀ a b, p a = true → p b = true → r a b) (l : List α) :
    (List.insertionSort r l).filter p = l.filter p := by
  have hpw : (l.filter p).Pairwise r :=
    List.pairwise_of_forall_mem_list fun a ha b hb =>
      hp a b (List.mem_filter.mp ha).2 (List.mem_filter.mp hb).2
  have h1 : List.Sublist (l.filter p) (List.insertionSort r l) :=
    List.sublist_insertionSort hpw l.filter_sublist
  have hid : (l.filter p).filter p = l.filter p :=
    List.filter_eq_self.mpr fun a ha => (List.mem_filter.mp ha).2
  have h2 : List.Sublist (l.filter p) ((List.insertionSort r l).filter p) := by
    have := h1.filter p
    rwa [hid] at this
  have h3 : List.Perm ((List.insertionSort r l).filter p) (l.filter p) :=
    (List.perm_insertionSort r l).filter p
  exact (h2.eq_of_length h3.length_eq.symm).symm

/-- Unfolding equation for `pyGroupby` on a list of length at least two. -/
theorem pyGroupby_cons_cons {α κ : Type} [DecidableEq κ] (key : α → κ)
    (x y : α) (t : List α) :
    pyGroupby key (x :: y :: t) =
      match pyGroupby key (y :: t) with
      | g :: gs =>
        if key x = key y then (x :: g) :: gs else [x] :: g :: gs
      | [] => [[x]] := by
  rw [pyGroupby]

/-- `pyGroupby` of a non-empty list is non-empty. -/
theorem pyGroupby_cons_ne_nil {α κ : Type} [DecidableEq κ] (key : α → κ) :
    ∀ (y : α) (t : List α), pyGroupby key (y :: t) ≠ []
  | _, [] => by simp [pyGroupby]
  | y, z :: t => by
    rw [pyGroupby_cons_cons]
    cases h : pyGroupby key (z :: t) with
    | nil => simp
    | cons g gs =>
      dsimp only
      split <;> simp

/-- Concatenating the groups produced by `pyGroupby` restores the input. -/
theorem pyGroupby_flatten {α κ : Type} [DecidableEq κ] (key : α → κ) :
    ∀ l : List α, (pyGroupby key l).flatten = l
  | [] => rfl
  | [_] => rfl
  | x :: y :: t => by
    have ih := pyGroupby_flatten key (y :: t)
    rw [pyGroupby_cons_cons]
    cases h : pyGroupby key (y :: t) with
    | nil => exact absurd h (pyGroupby_cons_ne_nil key y t)
    | cons g gs =>
      rw [h] at ih
      simp only [List.flatten_cons] at ih
      dsimp only
      split <;>
        simp only [List.flatten_cons, List.cons_append, List.nil_append, ih]

/-- `pyGroupby` produces no empty group. -/
theorem pyGroupby_ne_nil {α κ : Type} [DecidableEq κ] (key : α → κ) :
    ∀ l : List α, ∀ g ∈ pyGroupby key l, g ≠ []
  | [], g, hg => by simp [pyGroupby] at hg
  | [x], g, hg => by
    simp only [pyGroupby, List.mem_singleton] at hg
    simp [hg]
  | x :: y :: t, g, hg => by
    have ih := pyGroupby_ne_nil key (y :: t)
    rw [pyGroupby_cons_cons] at hg
    cases h : pyGroupby key (y :: t) with
    | nil => exact absurd h (pyGroupby_cons_ne_nil key y t)
    | cons g₀ gs =>
      rw [h] at hg
      dsimp only at hg
      split at hg <;> rcases List.mem_cons.mp hg with rfl | hmem
      · simp
      · exact ih g (h ▸ List.mem_cons_of_mem _ hmem)
      · simp
      · exact ih g (h ▸ hmem)

/-- The first group produced by `pyGroupby` starts with the first element
of the input. -/
theorem pyGroupby_head {α κ : Type} [DecidableEq κ] (key : α → κ) :
    ∀ (y : α) (t g gs : _), pyGroupby key (y :: t) = g :: gs →
      ∃ g', g = y :: g'
  | y, [], g, gs, h => by
    simp only [pyGroupby, List.cons.injEq] at h
    exact ⟨[], h.1.symm⟩
  | y, z :: t, g, gs, h => by
    rw [pyGroupby_cons_cons] at h
    cases h2 : pyGroupby key (z :: t) with
    | nil => exact absurd h2 (pyGroupby_cons_ne_nil key z t)
    | cons g₀ gs₀ =>
      rw [h2] at h
      dsimp only at h
      split at h <;> rw [List.cons.injEq] at h
      · exact ⟨g₀, h.1.symm⟩
      · exact ⟨[], h.1.symm⟩

/-- Within each group produced by `pyGroupby`, consecutive elements have
equal keys. -/
theorem pyGroupby_chain_key {α κ : Type} [DecidableEq κ] (key : α → κ) :
    ∀ l : List α, ∀ g ∈ pyGroupby key l,
      g.Chain' (fun a b => key a = key b)
  | [], g, hg => by simp [pyGroupby] at hg
  | [x], g, hg => by
    simp only [pyGroupby, List.mem_singleton] at hg
    simp [hg]
  | x :: y :: t, g, hg => by
    have ih := pyGroupby_chain_key key (y :: t)
    rw [pyGroupby_cons_cons] at hg
    cases h2 : pyGroupby key (y :: t) with
    | nil => exact absurd h2 (pyGroupby_cons_ne_nil key y t)
    | cons g₀ gs₀ =>
      rw [h2] at hg
      dsimp only at hg
      obtain ⟨g₀', rfl⟩ := pyGroupby_head key y t g₀ gs₀ h2
      split at hg <;> rcases List.mem_cons.mp hg with rfl | hmem
      · exact List.chain'_cons.mpr
          ⟨by assumption, ih _ (h2 ▸ List.mem_cons_self _ _)⟩
      · exact ih _ (h2 ▸ List.mem_cons_of_mem _ hmem)
      · exact List.chain'_singleton x
      · exact ih _ (h2 ▸ hmem)

/-! ### Claim theorems: the media connector -/

/-- Claim C5: for every `data:` URL whose `media-type;encoding` spec
names an encoding other than `"base64"`, the resolver fails with the
unsupported-encoding (`NotImplementedError`) failure before any codec
method is invoked — the error is the same for every codec — and the
codec's `load_base64` is invoked (on the media type and payload, its
result returned unchanged) exactly when the encoding token equals
`"base64"`. -/
theorem data_url_non_base64_rejected {B α : Type} (media_io : MediaIO B α)
    (url_path media_type data_type payload : String)
    (hparts : dataUrlParts url_path = some (media_type, data_type, payload)) :
    (data_type ≠ "base64" →
      MediaConnector.load_data_url media_io url_path =
        .error (.notImplementedError
          "Only base64 data URLs are supported for now.")) ∧
    (data_type = "base64" →
      MediaConnector.load_data_url media_io url_path =
        media_io.load_base64 media_type payload) := by
  unfold dataUrlParts at hparts
  unfold MediaConnector.load_data_url
  cases h1 : splitOnce ',' url_path with
  | none => rw [h1] at hparts; exact absurd hparts (by simp)
  | some p =>
    obtain ⟨data_spec, dat⟩ := p
    rw [h1] at hparts
    dsimp only at hparts
    cases h2 : splitOnce ';' data_spec with
    | none => rw [h2] at hparts; simp at hparts
    | some q =>
      obtain ⟨mt, dt⟩ := q
      rw [h2] at hparts
      dsimp only at hparts
      simp only [Option.some.injEq, Prod.mk.injEq] at hparts
      obtain ⟨rfl, rfl, rfl⟩ := hparts
      dsimp only
      rw [h2]
      dsimp only
      constructor
      · intro hne; rw [if_neg hne]
      · intro heq; rw [if_pos heq]

/-- Witness for `data_url_non_base64_rejected` at the concrete path
`"image/png;base32,AAAA"` (encoding token `"base32"`). -/
theorem data_url_non_base64_rejected_witness :
    dataUrlParts "image/png;base32,AAAA" =
      some ("image/png", "base32", "AAAA") ∧
    ("base32" : String) ≠ "base64" ∧
    MediaConnector.load_data_url lenIO "image/png;base32,AAAA" =
      .error (.notImplementedError
        "Only base64 data URLs are supported for now.") :=
  ⟨by decide, by decide,
    (data_url_non_base64_rejected lenIO "image/png;base32,AAAA" "image/png"
      "base32" "AAAA" (by decide)).1 (by decide)⟩

/-- Claim C1: when a sandbox directory is configured, a `file://` fetch
fails with the sandbox-violation `ValueError` whenever the absolute,
symlink-resolved form of the requested path does not have the sandbox
directory among its (proper) ancestors — which covers a symlink inside
the sandbox that resolves outside it, since `resolve` is applied before
the check — and the codec's `load_file` is invoked, its result returned
unchanged, exactly when the sandbox directory is an ancestor of the
resolved path. -/
theorem file_url_sandbox {B α : Type} (c : MediaConnector B)
    (media_io : MediaIO B α) (allowed : List String) (url_path : String)
    (hconf : c.allowed_local_media_path = some allowed) :
    (¬(allowed <+: c.resolve (c.toPath url_path) ∧
          allowed ≠ c.resolve (c.toPath url_path)) →
      c.load_file_url media_io url_path =
        .error (.valueError
          "The file path must be a subpath of `--allowed-local-media-path`.")) ∧
    ((allowed <+: c.resolve (c.toPath url_path) ∧
          allowed ≠ c.resolve (c.toPath url_path)) →
      c.load_file_url media_io url_path =
        media_io.load_file (c.toPath url_path)) := by
  unfold MediaConnector.load_file_url
  rw [hconf]
  dsimp only
  constructor
  · intro h
    rw [if_neg (fun hm => h (mem_pathParents.mp hm))]
  · intro h
    rw [if_pos (mem_pathParents.mpr h)]

/-- Witness: the connector `mkConnector "file" "/data/media/link"` has
sandbox `/data/media`; the requested path resolves (through a symlink)
to `/etc/secret`, of which the sandbox is not an ancestor, so the fetch
fails with the sandbox-violation error. -/
theorem file_url_sandbox_witness :
    (mkConnector "file" "/data/media/link").allowed_local_media_path =
      some ["data", "media"] ∧
    ¬((["data", "media"] : List String) <+:
        (mkConnector "file" "/data/media/link").resolve
          ((mkConnector "file" "/data/media/link").toPath
            "/data/media/link") ∧
      (["data", "media"] : List String) ≠
        (mkConnector "file" "/data/media/link").resolve
          ((mkConnector "file" "/data/media/link").toPath
            "/data/media/link")) ∧
    (mkConnector "file" "/data/media/link").load_file_url lenIO
        "/data/media/link" =
      .error (.valueError
        "The file path must be a subpath of `--allowed-local-media-path`.") :=
  ⟨rfl, by decide,
    (file_url_sandbox (mkConnector "file" "/data/media/link") lenIO
      ["data", "media"] "/data/media/link" rfl).1 (by decide)⟩

/-- Claim C2 (amended): `load_from_url` and `load_from_url_async` fail
with the unsupported-URL `ValueError` — the same fixed error for every
codec and transport, so neither is invoked — for every URL whose scheme
does not start with `"http"` and is not `"data"` or `"file"`.  (As
stated the claim is false: a scheme that merely starts with `"http"`,
such as `"httpx"`, is routed to the HTTP transport branch, so the
accepted schemes are not limited to `{http, https, data, file}`; see
the counterexample.) -/
theorem unsupported_scheme_rejected {B α : Type} (c : MediaConnector B)
    (media_io : MediaIO B α) (url : String) (t : Option Nat)
    (h1 : pyStartsWith (c.urlparse url).scheme "http" = false)
    (h2 : (c.urlparse url).scheme ≠ "data")
    (h3 : (c.urlparse url).scheme ≠ "file") :
    c.load_from_url url media_io t =
      .error
        (.valueError "The URL must be either a HTTP, data or file URL.") ∧
    c.load_from_url_async url media_io t =
      .error
        (.valueError "The URL must be either a HTTP, data or file URL.") := by
  constructor <;>
    simp [MediaConnector.load_from_url, MediaConnector.load_from_url_async,
      h1, h2, h3]

/-- Witness for `unsupported_scheme_rejected`: an `ftp://` URL is
rejected by both resolver forms. -/
theorem unsupported_scheme_rejected_witness :
    pyStartsWith ((mkConnector "ftp" "").urlparse "ftp://host/f").scheme
        "http" = false ∧
    ((mkConnector "ftp" "").urlparse "ftp://host/f").scheme ≠ "data" ∧
    ((mkConnector "ftp" "").urlparse "ftp://host/f").scheme ≠ "file" ∧
    ((mkConnector "ftp" "").load_from_url "ftp://host/f" lenIO none =
        .error
          (.valueError "The URL must be either a HTTP, data or file URL.") ∧
      (mkConnector "ftp" "").load_from_url_async "ftp://host/f" lenIO none =
        .error
          (.valueError "The URL must be either a HTTP, data or file URL.")) :=
  ⟨by decide, by decide, by decide,
    unsupported_scheme_rejected (mkConnector "ftp" "") lenIO "ftp://host/f"
      none (by decide) (by decide) (by decide)⟩

/-- Counterexample to claim C2 as stated: the scheme `"httpx"` is not
among `{http, https, data, file}`, yet `load_from_url` and its async
variant do not fail with the unsupported-URL error — the request is
routed to the transport and the codec and succeeds, because the source
tests `url_spec.scheme.startswith("http")`. -/
theorem httpx_scheme_accepted :
    ((mkConnector "httpx" "").urlparse "httpx://media.example/img").scheme ∉
      (["http", "https", "data", "file"] : List String) ∧
    (mkConnector "httpx" "").load_from_url "httpx://media.example/img"
      lenIO none = .ok 3 ∧
    (mkConnector "httpx" "").load_from_url_async "httpx://media.example/img"
      lenIO none = .ok 3 := by
  decide

/-- Claim C7: the blocking and suspending resolver forms share identical
branching — whenever the blocking and the suspending byte fetch agree on
a URL and timeout, `load_from_url` and `load_from_url_async` take the
same scheme branch and return equal results (the same decoded value, or
a failure of the same kind) for every codec. -/
theorem load_from_url_sync_async_agree {B α : Type} (c : MediaConnector B)
    (media_io : MediaIO B α) (url : String) (t : Option Nat)
    (hbytes : c.get_bytes url t = c.async_get_bytes url t) :
    c.load_from_url url media_io t = c.load_from_url_async url media_io t := by
  unfold MediaConnector.load_from_url MediaConnector.load_from_url_async
  rw [hbytes]

/-- Witness for `load_from_url_sync_async_agree` on a concrete
connector whose two transport shapes agree. -/
theorem load_from_url_sync_async_agree_witness :
    (mkConnector "http" "").get_bytes "http://h/x" (some 10) =
      (mkConnector "http" "").async_get_bytes "http://h/x" (some 10) ∧
    (mkConnector "http" "").load_from_url "http://h/x" lenIO (some 10) =
      (mkConnector "http" "").load_from_url_async "http://h/x" lenIO
        (some 10) :=
  ⟨rfl, load_from_url_sync_async_agree (mkConnector "http" "") lenIO
    "http://h/x" (some 10) rfl⟩

/-- Claim C6 (amended): only `fetch_image` and `fetch_image_async`
normalize the unrecognized-image-format failure into the
input-validation `ValueError` kind (with the same message);
`fetch_audio`, `fetch_audio_async`, `fetch_video` and
`fetch_video_async` propagate codec failures unchanged, and
`fetch_image_embedding` calls the codec directly with no normalization
at all.  (As stated the claim is false: see the counterexample, where
the same decode failure escapes `fetch_audio` un-normalized.) -/
theorem fetch_error_normalization {B α : Type} (c : MediaConnector B)
    (io : MediaIO B α) (url m : String) :
    (c.load_from_url url io (some c.VLLM_IMAGE_FETCH_TIMEOUT) =
        .error (.unidentifiedImageError m) →
      c.fetch_image io url = .error (.valueError m)) ∧
    (c.load_from_url_async url io (some c.VLLM_IMAGE_FETCH_TIMEOUT) =
        .error (.unidentifiedImageError m) →
      c.fetch_image_async io url = .error (.valueError m)) ∧
    (c.load_from_url url io (some c.VLLM_AUDIO_FETCH_TIMEOUT) =
        .error (.unidentifiedImageError m) →
      c.fetch_audio io url = .error (.unidentifiedImageError m)) ∧
    (c.load_from_url_async url io (some c.VLLM_AUDIO_FETCH_TIMEOUT) =
        .error (.unidentifiedImageError m) →
      c.fetch_audio_async io url = .error (.unidentifiedImageError m)) ∧
    (c.load_from_url url io (some c.VLLM_VIDEO_FETCH_TIMEOUT) =
        .error (.unidentifiedImageError m) →
      c.fetch_video io url = .error (.unidentifiedImageError m)) ∧
    (c.load_from_url_async url io (some c.VLLM_VIDEO_FETCH_TIMEOUT) =
        .error (.unidentifiedImageError m) →
      c.fetch_video_async io url = .error (.unidentifiedImageError m)) ∧
    (∀ d, MediaConnector.fetch_image_embedding io d =
      io.load_base64 "" d) := by
  refine ⟨?_, ?_, ?_, ?_, ?_, ?_, fun d => rfl⟩ <;> intro h <;>
    simp [MediaConnector.fetch_image, MediaConnector.fetch_image_async,
      MediaConnector.fetch_audio, MediaConnector.fetch_audio_async,
      MediaConnector.fetch_video, MediaConnector.fetch_video_async, h]

/-- Witness for `fetch_error_normalization`: a codec decode failure on
an `http` URL is converted to `ValueError` by `fetch_image`. -/
theorem fetch_error_normalization_witness :
    (mkConnector "http" "").load_from_url "http://h/i.png" brokenImageIO
        (some (mkConnector "http" "").VLLM_IMAGE_FETCH_TIMEOUT) =
      .error (.unidentifiedImageError "cannot identify image file") ∧
    (mkConnector "http" "").fetch_image brokenImageIO "http://h/i.png" =
      .error (.valueError "cannot identify image file") :=
  ⟨by decide,
    (fetch_error_normalization (mkConnector "http" "") brokenImageIO
      "http://h/i.png" "cannot identify image file").1 (by decide)⟩

/-- Counterexample to claim C6 as stated: under the very same connector
and decode failure, `fetch_audio` surfaces the unrecognized-image-format
failure unchanged — not the input-validation (`ValueError`) kind — and
so does `fetch_image_embedding`; only `fetch_image` normalizes it. -/
theorem fetch_audio_does_not_normalize :
    (mkConnector "http" "").fetch_audio brokenImageIO "http://h/a.wav" =
      .error (.unidentifiedImageError "cannot identify image file") ∧
    (mkConnector "http" "").fetch_audio brokenImageIO "http://h/a.wav" ≠
      .error (.valueError "cannot identify image file") ∧
    (mkConnector "http" "").fetch_video brokenImageIO "http://h/v.mp4" =
      .error (.unidentifiedImageError "cannot identify image file") ∧
    MediaConnector.fetch_image_embedding brokenImageIO "AAAA" =
      .error (.unidentifiedImageError "cannot identify image file") ∧
    (mkConnector "http" "").fetch_image brokenImageIO "http://h/a.wav" =
      .error (.valueError "cannot identify image file") := by
  decide

/-! ### Claim theorems: the metadata aligner -/

/-- Claim C8: for every non-empty placeholder dict, calling `merge` with
no hash dict supplied makes the third result absent (`none`), not an
empty sequence, on the single-modality path and the multi-modality path
alike. -/
theorem merge_no_hashes_third_absent
    (mm_positions : List (String × List PlaceholderRange))
    (h : mm_positions ≠ []) :
    ∃ mods phs, merge_and_sort_multimodal_metadata mm_positions none =
      .ok (mods, phs, none) := by
  unfold merge_and_sort_multimodal_metadata
  dsimp only
  split
  · next h0 => exact absurd (List.length_eq_zero.mp (by simpa using h0)) h
  · split
    · exact ⟨_, _, rfl⟩
    · exact ⟨_, _, rfl⟩

/-- Witness for `merge_no_hashes_third_absent` on a one-modality dict. -/
theorem merge_no_hashes_third_absent_witness :
    ([("image", [(⟨0, 2⟩ : PlaceholderRange)])] :
        List (String × List PlaceholderRange)) ≠ [] ∧
    ∃ mods phs,
      merge_and_sort_multimodal_metadata [("image", [⟨0, 2⟩])] none =
        .ok (mods, phs, none) :=
  ⟨by decide,
    merge_no_hashes_third_absent [("image", [⟨0, 2⟩])] (by decide)⟩

/-- The per-item hash list backing a modality the hash dict lacks is
all absent markers. -/
theorem hashListFor_missing (h : List (String × List String))
    (modality : String) (n : Nat) (hmiss : dictGet h modality = none) :
    hashListFor (some h) modality n = List.replicate n none := by
  simp only [hashListFor, hmiss]
  split <;> rfl

/-- Every triple the flattening step produces for a modality that the
hash dict lacks carries the absent (`none`) hash marker. -/
theorem flattenItems_hash_none
    (mm_positions : List (String × List PlaceholderRange))
    (h : List (String × List String))
    (it : String × PlaceholderRange × Option String)
    (hit : it ∈ flattenItems mm_positions (some h))
    (hmiss : dictGet h it.1 = none) :
    it.2.2 = none := by
  unfold flattenItems at hit
  rw [List.mem_flatMap] at hit
  obtain ⟨entry, hentry, hmem⟩ := hit
  rw [List.mem_map] at hmem
  obtain ⟨ph, hph, rfl⟩ := hmem
  dsimp only at hmiss ⊢
  rw [hashListFor_missing h entry.1 entry.2.length hmiss] at hph
  exact List.eq_of_mem_replicate (List.of_mem_zip hph).2

/-- On a placeholder dict with at least two modalities, `merge` returns
the three projections of the sorted flattened working sequence. -/
theorem merge_multi_eq
    (mm_positions : List (String × List PlaceholderRange))
    (mm_hashes : Option (List (String × List String)))
    (h2 : 2 ≤ mm_positions.length) :
    merge_and_sort_multimodal_metadata mm_positions mm_hashes =
      .ok ((List.insertionSort offsetLE
              (flattenItems mm_positions mm_hashes)).map (fun it => it.1),
           (List.insertionSort offsetLE
              (flattenItems mm_positions mm_hashes)).map (fun it => it.2.1),
           mm_hashes.map (fun _ =>
             (List.insertionSort offsetLE
                (flattenItems mm_positions mm_hashes)).map
               (fun it => pyStr it.2.2))) := by
  unfold merge_and_sort_multimodal_metadata
  dsimp only
  split
  · next h0 =>
    rw [List.length_map] at h0
    omega
  · split
    · next h1 =>
      rw [List.length_map] at h1
      omega
    · cases mm_hashes <;> rfl

/-- Claim C3: on every placeholder dict with at least two modalities,
the working sequence is stably sorted by offset — it is a permutation of
the flattened sequence, pairwise non-decreasing in offset, and for each
offset value the subsequence at that offset equals the one the
flattening step produced (equal-offset items keep their relative order) —
and `merge` returns exactly the three projections of that one sorted
sequence, so the modality, placeholder and hash results are permuted
identically and are parallel arrays (the placeholder projection is
sorted by offset ascending, and the hash projection is present exactly
when a hash dict was supplied). -/
theorem merge_multi_sorted_parallel
    (mm_positions : List (String × List PlaceholderRange))
    (mm_hashes : Option (List (String × List String)))
    (h2 : 2 ≤ mm_positions.length) :
    List.Perm
      (List.insertionSort offsetLE (flattenItems mm_positions mm_hashes))
      (flattenItems mm_positions mm_hashes) ∧
    (List.insertionSort offsetLE
      (flattenItems mm_positions mm_hashes)).Pairwise offsetLE ∧
    (∀ k : Nat,
      (List.insertionSort offsetLE
          (flattenItems mm_positions mm_hashes)).filter
          (fun it => it.2.1.offset == k) =
        (flattenItems mm_positions mm_hashes).filter
          (fun it => it.2.1.offset == k)) ∧
    ((List.insertionSort offsetLE
        (flattenItems mm_positions mm_hashes)).map
        (fun it => it.2.1)).Pairwise (fun a b => a.offset ≤ b.offset) ∧
    merge_and_sort_multimodal_metadata mm_positions mm_hashes =
      .ok ((List.insertionSort offsetLE
              (flattenItems mm_positions mm_hashes)).map (fun it => it.1),
           (List.insertionSort offsetLE
              (flattenItems mm_positions mm_hashes)).map (fun it => it.2.1),
           mm_hashes.map (fun _ =>
             (List.insertionSort offsetLE
                (flattenItems mm_positions mm_hashes)).map
               (fun it => pyStr it.2.2))) := by
  refine ⟨List.perm_insertionSort _ _, List.sorted_insertionSort _ _,
    fun k => ?_, ?_, ?_⟩
  · refine filter_insertionSort_eq offsetLE _ (fun a b ha hb => ?_) _
    rw [beq_iff_eq] at ha hb
    unfold offsetLE
    omega
  · exact List.Pairwise.map _ (fun a b (hab : offsetLE a b) => hab)
      (List.sorted_insertionSort offsetLE _)
  · exact merge_multi_eq mm_positions mm_hashes h2

/-- Witness for `merge_multi_sorted_parallel` on the two-modality dict
`mmPositionsEx` with no hash dict. -/
theorem merge_multi_sorted_parallel_witness :
    2 ≤ mmPositionsEx.length ∧
    (List.Perm
      (List.insertionSort offsetLE (flattenItems mmPositionsEx none))
      (flattenItems mmPositionsEx none) ∧
    (List.insertionSort offsetLE
      (flattenItems mmPositionsEx none)).Pairwise offsetLE ∧
    (∀ k : Nat,
      (List.insertionSort offsetLE
          (flattenItems mmPositionsEx none)).filter
          (fun it => it.2.1.offset == k) =
        (flattenItems mmPositionsEx none).filter
          (fun it => it.2.1.offset == k)) ∧
    ((List.insertionSort offsetLE
        (flattenItems mmPositionsEx none)).map
        (fun it => it.2.1)).Pairwise (fun a b => a.offset ≤ b.offset) ∧
    merge_and_sort_multimodal_metadata mmPositionsEx none =
      .ok ((List.insertionSort offsetLE
              (flattenItems mmPositionsEx none)).map (fun it => it.1),
           (List.insertionSort offsetLE
              (flattenItems mmPositionsEx none)).map (fun it => it.2.1),
           (none : Option (List (String × List String))).map (fun _ =>
             (List.insertionSort offsetLE
                (flattenItems mmPositionsEx none)).map
               (fun it => pyStr it.2.2)))) :=
  ⟨by decide, merge_multi_sorted_parallel mmPositionsEx none (by decide)⟩

/-- Claim C10: on the multi-modality path, when a hash dict is supplied
that lacks an entry for some modality present in the positions dict, the
returned hash sequence holds the literal string `"None"` at each of that
modality's item positions (the per-item absent markers are
string-coerced by `str(...)` along with the real hashes), whereas the
single-modality path returns the modality's hash sequence unchanged,
with no string coercion. -/
theorem merge_hash_none_marker :
    (∀ (mm_positions : List (String × List PlaceholderRange))
        (h : List (String × List String)) (m : String),
      2 ≤ mm_positions.length → dictGet h m = none →
      ∀ mods phs hs,
        merge_and_sort_multimodal_metadata mm_positions (some h) =
          .ok (mods, phs, some hs) →
        ∀ i (hi : i < mods.length) (hi' : i < hs.length),
          mods[i] = m → hs[i] = "None") ∧
    (∀ (m : String) (pl : List PlaceholderRange)
        (h : List (String × List String)) (hl : List String),
      h.isEmpty = false → dictGet h m = some hl →
      merge_and_sort_multimodal_metadata [(m, pl)] (some h) =
        .ok (List.replicate pl.length m, pl, some hl)) := by
  constructor
  · intro pos h m h2 hmiss mods phs hs heq i hi hi' hmod
    rw [merge_multi_eq pos (some h) h2] at heq
    simp only [Option.map_some', Except.ok.injEq, Prod.mk.injEq,
      Option.some.injEq] at heq
    obtain ⟨h1', h2', h3'⟩ := heq
    subst h1'
    subst h3'
    have his :
        i < (List.insertionSort offsetLE (flattenItems pos (some h))).length := by
      simpa using hi
    simp only [List.getElem_map] at hmod ⊢
    have hmem :
        (List.insertionSort offsetLE (flattenItems pos (some h)))[i] ∈
          flattenItems pos (some h) :=
      (List.mem_insertionSort offsetLE).mp (List.getElem_mem his)
    rw [flattenItems_hash_none pos h _ hmem (by rw [hmod]; exact hmiss)]
    rfl
  · intro m pl h hl hne hget
    simp [merge_and_sort_multimodal_metadata, dictGet, hne, hget]

/-- Witness for `merge_hash_none_marker`: the hash dict `mmHashesEx`
lacks the `"audio"` modality, so on the two-modality dict the merged
hash list holds `"None"` at the audio item's position; on a
single-modality dict the hash list comes back unchanged. -/
theorem merge_hash_none_marker_witness :
    2 ≤ mmPositionsEx.length ∧
    dictGet mmHashesEx "audio" = none ∧
    merge_and_sort_multimodal_metadata mmPositionsEx (some mmHashesEx) =
      .ok (["audio", "image"], [⟨0, 3⟩, ⟨5, 2⟩], some ["None", "h1"]) ∧
    (["audio", "image"] : List String)[0] = "audio" ∧
    (["None", "h1"] : List String)[0] = "None" ∧
    mmHashesEx.isEmpty = false ∧
    dictGet mmHashesEx "image" = some ["h1"] ∧
    merge_and_sort_multimodal_metadata [("image", [⟨5, 2⟩])]
        (some mmHashesEx) =
      .ok (List.replicate 1 "image", [⟨5, 2⟩], some ["h1"]) :=
  ⟨by decide, by decide, by decide, by decide,
    merge_hash_none_marker.1 mmPositionsEx mmHashesEx "audio" (by decide)
      (by decide) ["audio", "image"] [⟨0, 3⟩, ⟨5, 2⟩] ["None", "h1"]
      (by decide) 0 (by decide) (by decide) (by decide),
    by decide, by decide,
    merge_hash_none_marker.2 "image" [⟨5, 2⟩] mmHashesEx ["h1"]
      (by decide) (by decide)⟩

/-! ### Claim theorems: the batch grouper -/

/-- Claim C9: `group` is a run-length grouping: on the empty input it
returns the empty sequence; concatenating the output groups in order
yields exactly the input sequence; and every group is a non-empty
contiguous segment (infix) of the input — so two items that are
non-adjacent in the input are never placed into the same group, even
when they share the same single modality. -/
theorem group_is_run_length_grouping :
    group_mm_inputs_by_modality [] = [] ∧
    ∀ l : List MultiModalKwargs,
      (group_mm_inputs_by_modality l).flatten = l ∧
      ∀ g ∈ group_mm_inputs_by_modality l, g ≠ [] ∧ g <:+: l := by
  constructor
  · rfl
  · intro l
    cases l with
    | nil =>
      exact ⟨rfl, by intro g hg; simp [group_mm_inputs_by_modality] at hg⟩
    | cons x xs =>
      have hgrp : group_mm_inputs_by_modality (x :: xs) =
          pyGroupby modality_group_func (x :: xs) := by
        simp [group_mm_inputs_by_modality]
      refine ⟨?_, fun g hg => ⟨?_, ?_⟩⟩
      · rw [hgrp]
        exact pyGroupby_flatten _ _
      · rw [hgrp] at hg
        exact pyGroupby_ne_nil _ _ g hg
      · rw [hgrp] at hg
        have h := List.infix_of_mem_flatten hg
        rwa [pyGroupby_flatten] at h

/-- Witness for `group_is_run_length_grouping` on the four-item batch
`mmInputsEx` (modalities `a, a, b, a`) and its first group. -/
theorem group_is_run_length_grouping_witness :
    (group_mm_inputs_by_modality mmInputsEx).flatten = mmInputsEx ∧
    ([⟨0, ["a"]⟩, ⟨1, ["a"]⟩] : List MultiModalKwargs) ≠ [] ∧
    ([⟨0, ["a"]⟩, ⟨1, ["a"]⟩] : List MultiModalKwargs) <:+: mmInputsEx :=
  ⟨(group_is_run_length_grouping.2 mmInputsEx).1,
    (group_is_run_length_grouping.2 mmInputsEx).2
      [⟨0, ["a"]⟩, ⟨1, ["a"]⟩] (by decide)⟩

/-- Claim C4 (amended): provided the same object never occupies two
adjacent positions (adjacent items are distinct objects — the normal
case, since `id` is unique per live object), every item declaring two
or more modalities occupies its own singleton group — any group
containing it equals `[that item]` — and the grouping key of a
multi-modality item differs from the key of any adjacent item.  (As
stated, over arbitrary input sequences, the claim fails when the very
same two-modality object appears twice in a row; see the
counterexample.) -/
theorem multi_modality_singleton_group (l : List MultiModalKwargs)
    (hadj : l.Chain' (fun a b => a.uid ≠ b.uid)) :
    (∀ g ∈ group_mm_inputs_by_modality l, ∀ m ∈ g,
      1 < m.modalities.length → g = [m]) ∧
    (∀ pre a b post, l = pre ++ a :: b :: post →
      1 < a.modalities.length ∨ 1 < b.modalities.length →
      modality_group_func a ≠ modality_group_func b) := by
  have hkey : ∀ (x : MultiModalKwargs) (u : Nat),
      modality_group_func x = .inl u → x.uid = u := by
    intro x u hx
    unfold modality_group_func at hx
    split at hx
    · exact Sum.inl.inj hx
    · split at hx <;> simp at hx
  constructor
  · intro g hg m hm hmulti
    cases l with
    | nil => simp [group_mm_inputs_by_modality] at hg
    | cons x xs =>
      rw [show group_mm_inputs_by_modality (x :: xs) =
          pyGroupby modality_group_func (x :: xs) from by
        simp [group_mm_inputs_by_modality]] at hg
      have hchain := pyGroupby_chain_key modality_group_func (x :: xs) g hg
      haveI : IsTrans MultiModalKwargs
          (fun a b => modality_group_func a = modality_group_func b) :=
        ⟨fun _ _ _ h1 h2 => h1.trans h2⟩
      have hpair := List.chain'_iff_pairwise.mp hchain
      have hall : ∀ b ∈ g, modality_group_func b = modality_group_func m := by
        intro b hb
        by_cases hbm : b = m
        · rw [hbm]
        · exact List.Pairwise.forall (fun _ _ h => h.symm) hpair hb hm hbm
      cases g with
      | nil => exact absurd hm (List.not_mem_nil m)
      | cons a rest =>
        cases rest with
        | nil =>
          have hma : m = a := by simpa using hm
          rw [hma]
        | cons b t =>
          exfalso
          have hkm : modality_group_func m = .inl m.uid := by
            unfold modality_group_func
            rw [if_pos hmulti]
          have hua : a.uid = m.uid := hkey a m.uid (by rw [hall a (by simp), hkm])
          have hub : b.uid = m.uid := hkey b m.uid (by rw [hall b (by simp), hkm])
          have hinf : (a :: b :: t) <:+: (x :: xs) := by
            have h := List.infix_of_mem_flatten hg
            rwa [pyGroupby_flatten] at h
          have hpref : ([a, b] : List MultiModalKwargs) <:+: (a :: b :: t) :=
            ⟨[], t, rfl⟩
          have hchain2 := List.Chain'.infix hadj (hpref.trans hinf)
          exact List.chain'_pair.mp hchain2 (hua.trans hub.symm)
  · intro pre a b post heq hmulti
    have hab : a.uid ≠ b.uid := by
      have h2 := List.Chain'.infix hadj
        (⟨pre, post, by rw [heq]; simp⟩ : ([a, b] : List MultiModalKwargs) <:+: l)
      have h3 := List.chain'_pair.mp h2
      exact h3
    intro hkeq
    rcases hmulti with ha | hb
    · have hka : modality_group_func a = .inl a.uid := by
        unfold modality_group_func
        rw [if_pos ha]
      have h := hkey b a.uid (by rw [← hkeq, hka])
      exact hab h.symm
    · have hkb : modality_group_func b = .inl b.uid := by
        unfold modality_group_func
        rw [if_pos hb]
      have h := hkey a b.uid (by rw [hkeq, hkb])
      exact hab h

/-- Witness for `multi_modality_singleton_group` on a batch of two
distinct two-modality objects. -/
theorem multi_modality_singleton_group_witness :
    ([⟨0, ["a", "b"]⟩, ⟨1, ["a", "b"]⟩] : List MultiModalKwargs).Chain'
      (fun a b => a.uid ≠ b.uid) ∧
    (∀ g ∈ group_mm_inputs_by_modality
        [⟨0, ["a", "b"]⟩, ⟨1, ["a", "b"]⟩],
      ∀ m ∈ g, 1 < m.modalities.length → g = [m]) ∧
    (∀ pre a b post,
      ([⟨0, ["a", "b"]⟩, ⟨1, ["a", "b"]⟩] : List MultiModalKwargs) =
        pre ++ a :: b :: post →
      1 < a.modalities.length ∨ 1 < b.modalities.length →
      modality_group_func a ≠ modality_group_func b) :=
  ⟨List.chain'_pair.mpr (by decide),
    (multi_modality_singleton_group _ (List.chain'_pair.mpr (by decide))).1,
    (multi_modality_singleton_group _ (List.chain'_pair.mpr (by decide))).2⟩

/-- Counterexample to claim C4 as stated: when the same two-modality
object (same `id`) occurs at two adjacent positions, both occurrences
get the same grouping key — the object's id — so `groupby` merges them
into one two-element group: the item does not occupy a singleton group
and its key equals its neighbor's. -/
theorem duplicated_multi_modal_object_not_singleton :
    1 < mmMultiEx.modalities.length ∧
    group_mm_inputs_by_modality [mmMultiEx, mmMultiEx] =
      [[mmMultiEx, mmMultiEx]] ∧
    [mmMultiEx] ∉ group_mm_inputs_by_modality [mmMultiEx, mmMultiEx] ∧
    modality_group_func mmMultiEx = modality_group_func mmMultiEx := by
  decide
